import Mathlib

/-!
Verification of the QR-attendance core: the JS number model, the geofence
functions from `utils/location.js`, the JSON-file `Database` operations, and
the attendance-marking pipeline from `routes/attendance.js`.

Conventions of the embedding:
* JS numbers are modelled by `JSVal`: `null`, `NaN`, or a finite real.
  Infinities are outside the model; no operation in the modelled code divides
  by zero, so they are never produced.
* Instants (`Date.now()`, `qr_expires_at`, `marked_at`) are `Int` millisecond
  timestamps; the source stores ISO strings and compares the parsed dates.
* Strings that the source receives from JSON bodies are `String`; a missing
  (`undefined`) required text field is modelled as `""`, which is exactly the
  set of values the source's falsiness check `!field` rejects for strings.
-/

/-- Model of a JS value flowing into the numeric code paths: `null`,
`NaN`, or a finite double (modelled as a real number). -/
inductive JSVal where
  | null : JSVal
  | nan : JSVal
  | num : ℝ → JSVal

namespace JSVal

/-- ToNumber coercion as JS arithmetic applies it: `null` coerces to `0`,
`NaN` and numbers are unchanged.  The result is never `null`. -/
def toNum : JSVal → JSVal
  | null => num 0
  | nan => nan
  | num x => num x

/-- JS subtraction `a - b` on the modelled values. -/
def jsub (a b : JSVal) : JSVal :=
  match a.toNum, b.toNum with
  | num x, num y => num (x - y)
  | _, _ => nan

/-- JS addition `a + b` (numeric operands only in the modelled code). -/
def jadd (a b : JSVal) : JSVal :=
  match a.toNum, b.toNum with
  | num x, num y => num (x + y)
  | _, _ => nan

/-- JS multiplication `a * b`. -/
def jmul (a b : JSVal) : JSVal :=
  match a.toNum, b.toNum with
  | num x, num y => num (x * y)
  | _, _ => nan

/-- JS division `a / b`.  The source divides only by the literal `2`, so the
`y = 0` branch (where JS would produce an infinity) is never exercised. -/
noncomputable def jdiv (a b : JSVal) : JSVal :=
  match a.toNum, b.toNum with
  | num x, num y => if y = 0 then nan else num (x / y)
  | _, _ => nan

/-- JS `Math.sin`. -/
noncomputable def jsin (a : JSVal) : JSVal :=
  match a.toNum with
  | num x => num (Real.sin x)
  | _ => nan

/-- JS `Math.cos`. -/
noncomputable def jcos (a : JSVal) : JSVal :=
  match a.toNum with
  | num x => num (Real.cos x)
  | _ => nan

/-- JS `Math.sqrt`; negative arguments give `NaN` as in IEEE. -/
noncomputable def jsqrt (a : JSVal) : JSVal :=
  match a.toNum with
  | num x => if x < 0 then nan else num (Real.sqrt x)
  | _ => nan

/-- JS `Math.atan2 y x`; on numeric arguments it is the argument of the complex
number `x + y*i`, which matches the quadrant handling of `atan2`, including
`atan2 0 1 = 0`. -/
noncomputable def jatan2 (y x : JSVal) : JSVal :=
  match y.toNum, x.toNum with
  | num b, num a => num (Complex.arg ⟨a, b⟩)
  | _, _ => nan

/-- JS `Math.round` (used only for the display distance). -/
noncomputable def jround (a : JSVal) : JSVal :=
  match a.toNum with
  | num x => num ((⌊x + 1 / 2⌋ : ℤ) : ℝ)
  | _ => nan

/-- JS comparison `a <= r` against a plain number `r`: `NaN` compares
false; a numeric value compares as a real. `null` never reaches this
comparison in the modelled code (it is only applied to arithmetic results). -/
def jle (a : JSVal) (r : ℝ) : Prop :=
  match a.toNum with
  | num x => x ≤ r
  | _ => False


end JSVal

open JSVal

/-! ### `utils/location.js` -/

/-- Degrees-to-radians helper `toRad` from `calculateDistance`. -/
noncomputable def toRad (v : JSVal) : JSVal := jmul v (num (Real.pi / 180))

/-- Haversine distance of `utils/location.js:calculateDistance`, operating on
the JS value model.  Earth radius 6371000 m; inputs in degrees. -/
noncomputable def calculateDistance (lat1 lng1 lat2 lng2 : JSVal) : JSVal :=
  let dLat := toRad (jsub lat2 lat1)
  let dLng := toRad (jsub lng2 lng1)
  let a := jadd (jmul (jsin (jdiv dLat (num 2))) (jsin (jdiv dLat (num 2))))
      (jmul (jmul (jmul (jcos (toRad lat1)) (jcos (toRad lat2)))
          (jsin (jdiv dLng (num 2)))) (jsin (jdiv dLng (num 2))))
  let c := jmul (num 2) (jatan2 (jsqrt a) (jsqrt (jsub (num 1) a)))
  jmul (num 6371000) c

/-- Result record of `validateLocation`: the boolean verdict and the rounded
display distance. -/
structure LocationResult where
  isValid : Prop
  distance : JSVal

/-- Model of `validateLocation` from `utils/location.js`: verdict is the comparison of the
unrounded distance against the radius; the stored distance is rounded. -/
noncomputable def validateLocation (studentLat studentLng classroomLat classroomLng : JSVal)
    (allowedRadius : ℝ) : LocationResult :=
  let distance := calculateDistance studentLat studentLng classroomLat classroomLng
  { isValid := jle distance allowedRadius, distance := jround distance }

/-- Value of the haversine intermediate `a` on purely numeric inputs,
as a real number. -/
noncomputable def havA (lat1 lng1 lat2 lng2 : ℝ) : ℝ :=
  let k := Real.pi / 180
  let dLat := (lat2 - lat1) * k
  let dLng := (lng2 - lng1) * k
  Real.sin (dLat / 2) * Real.sin (dLat / 2) +
    Real.cos (lat1 * k) * Real.cos (lat2 * k) * Real.sin (dLng / 2) * Real.sin (dLng / 2)

/-- Distance value as a function of the haversine intermediate `a`. -/
noncomputable def distFromA (a : ℝ) : JSVal :=
  jmul (num 6371000) (jmul (num 2) (jatan2 (jsqrt (num a)) (jsqrt (num (1 - a)))))

/-- Lecture record as stored by the JSON database.  Fields the verified
operations never consult (`subject`, `date`, `lecture_number`, `notes`,
`created_at`) are omitted. -/
structure Lecture where
  id : Nat
  teacher_id : Nat
  qr_token : String
  qr_expires_at : Int
  classroom_lat : ℝ
  classroom_lng : ℝ
  allowed_radius : ℝ

/-- Attendance record as stored by the JSON database. -/
structure Attendance where
  id : Nat
  lecture_id : Nat
  student_name : String
  roll_number : String
  location_lat : JSVal
  location_lng : JSVal
  location_status : String
  marked_at : Int

/-- In-memory state `this.data` of the `Database` singleton.  The `teachers`
collection is omitted: none of the verified operations reads it. -/
structure DB where
  lectures : List Lecture
  attendance : List Attendance

/-- Model of `Database.nextId`: one more than the maximum id, or `1` for an empty
collection. -/
def nextId (ids : List Nat) : Nat :=
  if ids.isEmpty then 1 else ids.foldl max 0 + 1

/-- Model of `Database.getLectureByToken`. -/
def getLectureByToken (db : DB) (token : String) : Option Lecture :=
  db.lectures.find? (fun l => l.qr_token == token)

/-- Model of `Database.getAttendanceByLectureAndRoll`. -/
def getAttendanceByLectureAndRoll (db : DB) (lectureId : Nat) (rollNumber : String) :
    Option Attendance :=
  db.attendance.find? (fun a => a.lecture_id == lectureId && a.roll_number == rollNumber)

/-- Insertion of `x` into a list sorted by `le`, keeping earlier elements
first on ties. -/
def insertBy (le : Attendance → Attendance → Bool) (x : Attendance) :
    List Attendance → List Attendance
  | [] => [x]
  | y :: ys => if le y x then y :: insertBy le x ys else x :: y :: ys

/-- Stable sort by `le` (insertion sort), modelling `Array.prototype.sort`
with the date-difference comparator. -/
def sortBy (le : Attendance → Attendance → Bool) : List Attendance → List Attendance
  | [] => []
  | x :: xs => insertBy le x (sortBy le xs)

/-- Model of `Database.getAttendanceByLecture`: records of one lecture, sorted by
`marked_at` ascending. -/
def getAttendanceByLecture (db : DB) (lectureId : Nat) : List Attendance :=
  sortBy (fun a b => decide (a.marked_at ≤ b.marked_at))
    (db.attendance.filter (fun a => a.lecture_id == lectureId))

/-- Replacement of the first element satisfying `p` by its image under `g`,
modelling `Array.prototype.find` followed by in-place mutation. -/
def updateFirst (p : Lecture → Bool) (g : Lecture → Lecture) : List Lecture → List Lecture
  | [] => []
  | x :: xs => if p x then g x :: xs else x :: updateFirst p g xs

/-- Model of `Database.updateLectureQR`: rebind the lecture's token and expiry;
returns whether a lecture with this id existed. -/
def updateLectureQR (db : DB) (id : Nat) (token : String) (expiresAt : Int) : DB × Bool :=
  if (db.lectures.find? (fun l => l.id == id)).isSome then
    let ls := updateFirst (fun l => l.id == id)
      (fun l => { l with qr_token := token, qr_expires_at := expiresAt }) db.lectures
    ({ db with lectures := ls }, true)
  else (db, false)

/-- Removal of the first element satisfying `p`, modelling `findIndex` plus
`splice`. -/
def removeFirst (p : Lecture → Bool) : List Lecture → List Lecture
  | [] => []
  | x :: xs => if p x then xs else x :: removeFirst p xs

/-- Model of `Database.deleteLecture`: ownership-checked removal of the lecture and,
in cascade, of all its attendance records. -/
def deleteLecture (db : DB) (id teacherId : Nat) : DB × Bool :=
  if (db.lectures.find? (fun l => l.id == id && l.teacher_id == teacherId)).isSome then
    ({ db with
        lectures := removeFirst (fun l => l.id == id && l.teacher_id == teacherId) db.lectures,
        attendance := db.attendance.filter (fun a => a.lecture_id != id) }, true)
  else (db, false)

/-- Model of `Database.createAttendance`: assigns the next id, stamps `marked_at`
with the current instant, and appends.  The `save()` call it performs is
modelled separately by `markAttendanceFS`. -/
def createAttendance (db : DB) (lectureId : Nat) (studentName rollNumber : String)
    (lat lng : JSVal) (status : String) (now : Int) : Attendance × DB :=
  let a : Attendance :=
    { id := nextId (db.attendance.map (·.id)), lecture_id := lectureId,
      student_name := studentName, roll_number := rollNumber,
      location_lat := lat, location_lng := lng, location_status := status,
      marked_at := now }
  (a, { db with attendance := db.attendance ++ [a] })

/-! ### Token issue and the verify/mark routes -/

/-- Expiry window of `routes/lectures.js` (`QR_EXPIRY_MINUTES`). -/
def qrExpiryMinutes : Int := 5

/-- Model of `generateQRData`: the freshly drawn uuid is a parameter (its randomness
is outside the model); the expiry is the issue instant plus the window. -/
def generateQRData (uuid : String) (now : Int) : String × Int :=
  (uuid, now + qrExpiryMinutes * 60 * 1000)

/-- Result of `GET /api/attendance/verify-token/:token`. -/
inductive VerifyOutcome where
  | notFound : VerifyOutcome
  | expired : VerifyOutcome
  | valid : Int → VerifyOutcome
  deriving DecidableEq

/-- The `verify-token` route: 404 when no lecture currently binds the token,
410 when `expiresAt <= now`, otherwise valid with
`Math.floor((expiresAt - now) / 1000)` remaining seconds. -/
def verifyToken (db : DB) (token : String) (now : Int) : VerifyOutcome :=
  match getLectureByToken db token with
  | none => .notFound
  | some lecture =>
    if lecture.qr_expires_at ≤ now then .expired
    else .valid ((lecture.qr_expires_at - now).fdiv 1000)

/-- Request body of `POST /api/attendance/mark`.  A missing required text
field is modelled as `""`; `none` for a coordinate is JS `undefined`. -/
structure MarkRequest where
  token : String
  studentName : String
  rollNumber : String
  latitude : Option JSVal
  longitude : Option JSVal

/-- JS `String.prototype.trim`: whitespace stripped from both ends. -/
def jsTrim (s : String) : String :=
  String.mk (((s.data.dropWhile Char.isWhitespace).reverse.dropWhile Char.isWhitespace).reverse)

/-- JS `String.prototype.toUpperCase` on the ASCII range. -/
def jsUpper (s : String) : String := String.mk (s.data.map Char.toUpper)

/-- Identity normalization of the mark route: `rollNumber.trim().toUpperCase()`. -/
def normalizeRoll (r : String) : String := jsUpper (jsTrim r)

/-- Terminal outcome of one submission, one constructor per distinct HTTP
response of the mark route. -/
inductive Outcome where
  | missingFields : Outcome
  | tokenNotFound : Outcome
  | tokenExpired : Outcome
  | duplicate : Outcome
  | locationRequired : Outcome
  | locationRejected : JSVal → ℝ → Outcome
  | accepted : Attendance → Outcome

/-- Presence of the three required text fields (the route's
`!token || !studentName || !rollNumber` guard rejects exactly these). -/
def fieldsOk (req : MarkRequest) : Prop :=
  req.token ≠ "" ∧ req.studentName ≠ "" ∧ req.rollNumber ≠ ""

open Classical in
/-- Route `POST /api/attendance/mark`: required-field guard, then token lookup,
expiry check, duplicate check, location-presence check, geofence check, and
finally the append, in source order, short-circuiting on the first failure. -/
noncomputable def markAttendance (db : DB) (req : MarkRequest) (now : Int) : Outcome × DB :=
  if req.token = "" ∨ req.studentName = "" ∨ req.rollNumber = "" then (.missingFields, db)
  else
    match getLectureByToken db req.token with
    | none => (.tokenNotFound, db)
    | some lecture =>
      if lecture.qr_expires_at ≤ now then (.tokenExpired, db)
      else
        match getAttendanceByLectureAndRoll db lecture.id (normalizeRoll req.rollNumber) with
        | some _ => (.duplicate, db)
        | none =>
          match req.latitude, req.longitude with
          | some lat, some lng =>
            let check := validateLocation lat lng (num lecture.classroom_lat)
                (num lecture.classroom_lng) lecture.allowed_radius
            if check.isValid then
              let r := createAttendance db lecture.id (jsTrim req.studentName)
                  (normalizeRoll req.rollNumber) lat lng "verified" now
              (.accepted r.1, r.2)
            else (.locationRejected check.distance lecture.allowed_radius, db)
          | _, _ => (.locationRequired, db)

/-- Model of `Database.save`: writes the in-memory state to the file when the write
succeeds; on an I/O error it only logs (`catch` with `console.error`) and
leaves the file as it was. -/
def save (ok : Bool) (mem disk : DB) : DB := if ok then mem else disk

/-- The mark route together with the persisted file: the only `save()` on
the submission path is the one inside `createAttendance`, i.e. on the
accepted branch.  `saveOk` tells whether `fs.writeFileSync` succeeds. -/
noncomputable def markAttendanceFS (db disk : DB) (req : MarkRequest) (now : Int)
    (saveOk : Bool) : Outcome × DB × DB :=
  match markAttendance db req now with
  | (.accepted a, db') => (.accepted a, db', save saveOk db' disk)
  | (o, db') => (o, db', disk)

/-- Core uniqueness invariant of the ledger: every stored roll number is the
normalization of some submitted string, and within one lecture no two
records share a roll number. -/
def ledgerInv (db : DB) : Prop :=
  (∀ a ∈ db.attendance, ∃ s, a.roll_number = normalizeRoll s) ∧
  db.attendance.Pairwise
    (fun a b => a.lecture_id = b.lecture_id → a.roll_number ≠ b.roll_number)

/-! ### Concrete sample data used by the witness theorems -/

/-- Sample lecture: token `"tok"`, expiry at 300000 ms, classroom at the
origin, radius 100 m. -/
def wLecture : Lecture :=
  { id := 1, teacher_id := 1, qr_token := "tok", qr_expires_at := 300000,
    classroom_lat := 0, classroom_lng := 0, allowed_radius := 100 }

/-- Sample database holding only `wLecture`. -/
def wDB : DB := { lectures := [wLecture], attendance := [] }

/-- Sample lecture whose token `"old"` is about to be superseded. -/
def w3Lecture : Lecture :=
  { id := 1, teacher_id := 1, qr_token := "old", qr_expires_at := 300000,
    classroom_lat := 0, classroom_lng := 0, allowed_radius := 100 }

/-- Sample database for the reissue scenario. -/
def w3DB : DB := { lectures := [w3Lecture], attendance := [] }

/-- Attendance record of lecture 1 in the cascade-delete scenario. -/
def w8A1 : Attendance :=
  { id := 1, lecture_id := 1, student_name := "S one", roll_number := "A1",
    location_lat := num 0, location_lng := num 0, location_status := "verified",
    marked_at := 10 }

/-- Attendance record of another lecture (id 2) in the cascade-delete
scenario. -/
def w8A2 : Attendance :=
  { id := 2, lecture_id := 2, student_name := "S two", roll_number := "B2",
    location_lat := num 0, location_lng := num 0, location_status := "verified",
    marked_at := 20 }

/-- Sample database for the cascade-delete scenario. -/
def w8DB : DB := { lectures := [wLecture], attendance := [w8A1, w8A2] }

/-- Attendance record already stored for roll `"A1"` of lecture 1. -/
def w2A : Attendance :=
  { id := 1, lecture_id := 1, student_name := "S one", roll_number := "A1",
    location_lat := num 0, location_lng := num 0, location_status := "verified",
    marked_at := 10 }

/-- Sample database for the duplicate-suppression scenario: the sample
lecture plus an existing record for roll `"A1"`. -/
def w2DB : DB := { lectures := [wLecture], attendance := [w2A] }

/-- Second submission of the duplicate scenario: same lecture token, roll
`"a1 "` (case/whitespace variant of `"A1"`). -/
def w2Req : MarkRequest :=
  { token := "tok", studentName := "S two", rollNumber := "a1 ",
    latitude := some (num 0), longitude := some (num 0) }

/-- Submission carrying present but null coordinates. -/
def c10Req : MarkRequest :=
  { token := "tok", studentName := "N", rollNumber := "R1",
    latitude := some JSVal.null, longitude := some JSVal.null }

/-- Record created by the null-coordinate submission against `wDB`. -/
def c10Rec : Attendance :=
  { id := 1, lecture_id := 1, student_name := "N", roll_number := "R1",
    location_lat := JSVal.null, location_lng := JSVal.null,
    location_status := "verified", marked_at := 5 }

/-- Submission carrying a NaN latitude. -/
def c10NanReq : MarkRequest :=
  { token := "tok", studentName := "N", rollNumber := "R2",
    latitude := some JSVal.nan, longitude := some (num 0) }

namespace JSVal

@[simp] theorem toNum_null : toNum null = num 0 := rfl
@[simp] theorem toNum_nan : toNum nan = nan := rfl
@[simp] theorem toNum_num (x : ℝ) : toNum (num x) = num x := rfl
@[simp] theorem toNum_toNum (a : JSVal) : a.toNum.toNum = a.toNum := by
  cases a <;> rfl

@[simp] theorem jsub_num (x y : ℝ) : jsub (num x) (num y) = num (x - y) := rfl
@[simp] theorem jadd_num (x y : ℝ) : jadd (num x) (num y) = num (x + y) := rfl
@[simp] theorem jmul_num (x y : ℝ) : jmul (num x) (num y) = num (x * y) := rfl
@[simp] theorem jsin_num (x : ℝ) : jsin (num x) = num (Real.sin x) := rfl
@[simp] theorem jcos_num (x : ℝ) : jcos (num x) = num (Real.cos x) := rfl
@[simp] theorem jdiv_num_two (x : ℝ) : jdiv (num x) (num 2) = num (x / 2) := by
  simp [jdiv]

@[simp] theorem jsub_nan_left (b : JSVal) : jsub nan b = nan := by
  cases b <;> rfl
@[simp] theorem jsub_nan_right (a : JSVal) : jsub a nan = nan := by
  cases a <;> rfl
@[simp] theorem jadd_nan_left (b : JSVal) : jadd nan b = nan := by
  cases b <;> rfl
@[simp] theorem jadd_nan_right (a : JSVal) : jadd a nan = nan := by
  cases a <;> rfl
@[simp] theorem jmul_nan_left (b : JSVal) : jmul nan b = nan := by
  cases b <;> rfl
@[simp] theorem jmul_nan_right (a : JSVal) : jmul a nan = nan := by
  cases a <;> rfl
@[simp] theorem jdiv_nan_left (b : JSVal) : jdiv nan b = nan := by
  cases b <;> rfl
@[simp] theorem jdiv_nan_right (a : JSVal) : jdiv a nan = nan := by
  cases a <;> rfl
@[simp] theorem jsin_nan : jsin nan = nan := rfl
@[simp] theorem jcos_nan : jcos nan = nan := rfl
@[simp] theorem jsqrt_nan : jsqrt nan = nan := rfl
@[simp] theorem jround_nan : jround nan = nan := rfl
@[simp] theorem jatan2_nan_left (x : JSVal) : jatan2 nan x = nan := by
  cases x <;> rfl
@[simp] theorem jatan2_nan_right (y : JSVal) : jatan2 y nan = nan := by
  cases y <;> rfl
@[simp] theorem jle_nan (r : ℝ) : jle nan r = False := rfl
@[simp] theorem jle_num (x r : ℝ) : jle (num x) r = (x ≤ r) := rfl

theorem jsub_toNum (a b : JSVal) : jsub a.toNum b.toNum = jsub a b := by
  cases a <;> cases b <;> rfl
theorem jmul_toNum (a b : JSVal) : jmul a.toNum b.toNum = jmul a b := by
  cases a <;> cases b <;> rfl

end JSVal

theorem calcDist_num (lat1 lng1 lat2 lng2 : ℝ) :
    calculateDistance (num lat1) (num lng1) (num lat2) (num lng2) =
      distFromA (havA lat1 lng1 lat2 lng2) := by
  simp [calculateDistance, distFromA, havA, toRad]

theorem havA_symm (lat1 lng1 lat2 lng2 : ℝ) :
    havA lat1 lng1 lat2 lng2 = havA lat2 lng2 lat1 lng1 := by
  have h : ∀ x y k : ℝ, (x - y) * k / 2 = -((y - x) * k / 2) := by
    intro x y k; ring
  simp only [havA]
  rw [h lat2 lat1, h lng2 lng1]
  simp only [Real.sin_neg]
  ring

theorem havA_self (lat lng : ℝ) : havA lat lng lat lng = 0 := by
  simp [havA]

theorem distFromA_zero : distFromA 0 = num 0 := by
  have harg : Complex.arg ⟨1, 0⟩ = 0 := by
    have h1 : (⟨1, 0⟩ : ℂ) = 1 := by
      apply Complex.ext <;> simp
    rw [h1, Complex.arg_one]
  simp only [distFromA, jsqrt, toNum_num]
  rw [if_neg (by norm_num : ¬ (0 : ℝ) < 0), if_neg (by norm_num : ¬ (1 : ℝ) - 0 < 0)]
  simp [jatan2, harg, Real.sqrt_zero, Real.sqrt_one]

theorem calcDist_self (lat lng : ℝ) :
    calculateDistance (num lat) (num lng) (num lat) (num lng) = num 0 := by
  rw [calcDist_num, havA_self, distFromA_zero]

/-! ### Data model of `database/init.js` -/


/-- NaN in any coordinate propagates through the haversine computation. -/
theorem calcDist_nan (lat1 lng1 lat2 lng2 : JSVal)
    (h : lat1 = nan ∨ lng1 = nan ∨ lat2 = nan ∨ lng2 = nan) :
    calculateDistance lat1 lng1 lat2 lng2 = nan := by
  rcases h with h | h | h | h <;> subst h <;> simp [calculateDistance, toRad]

/-- The verdict of `validateLocation` is by definition the comparison of the
unrounded distance. -/
theorem validateLocation_isValid (sLat sLng cLat cLng : JSVal) (r : ℝ) :
    (validateLocation sLat sLng cLat cLng r).isValid =
      jle (calculateDistance sLat sLng cLat cLng) r := rfl

/-- The display field of `validateLocation` is the rounded distance. -/
theorem validateLocation_distance (sLat sLng cLat cLng : JSVal) (r : ℝ) :
    (validateLocation sLat sLng cLat cLng r).distance =
      jround (calculateDistance sLat sLng cLat cLng) := rfl

/-- C5: the geofence boundary is inclusive and decided on the unrounded
distance: `isValid` holds iff the unrounded haversine distance is `≤` the
radius (the rounded display distance plays no role), so a distance exactly
equal to the radius passes and a distance of radius + 0.001 fails. -/
theorem c5_boundary_inclusive_unrounded (sLat sLng cLat cLng : JSVal) (r : ℝ) :
    ((validateLocation sLat sLng cLat cLng r).isValid ↔
      jle (calculateDistance sLat sLng cLat cLng) r) ∧
    (∀ d : ℝ, calculateDistance sLat sLng cLat cLng = num d →
      (((validateLocation sLat sLng cLat cLng r).isValid ↔ d ≤ r) ∧
        (d = r → (validateLocation sLat sLng cLat cLng r).isValid) ∧
        (d = r + 1 / 1000 → ¬ (validateLocation sLat sLng cLat cLng r).isValid))) := by
  refine ⟨Iff.rfl, ?_⟩
  intro d hd
  rw [validateLocation_isValid, hd, jle_num]
  refine ⟨Iff.rfl, fun he => le_of_eq he, fun he => ?_⟩
  rw [he]
  intro hcontra
  linarith

/-- Witness for C5 at a concrete boundary input: identical points have
distance exactly 0, and radius 0 still validates (inclusive boundary). -/
theorem c5_witness :
    calculateDistance (num 0) (num 0) (num 0) (num 0) = num 0 ∧
    (validateLocation (num 0) (num 0) (num 0) (num 0) 0).isValid :=
  ⟨calcDist_self 0 0,
    ((c5_boundary_inclusive_unrounded (num 0) (num 0) (num 0) (num 0) 0).2 0
      (calcDist_self 0 0)).2.1 rfl⟩

/-- C6 counterexample: out-of-range finite degrees do not propagate as NaN.
Latitude 200 is far outside the valid degree range, yet the distance between
two such identical points is the number 0, and the geofence validates. -/
theorem c6_counterexample :
    calculateDistance (num 200) (num 0) (num 200) (num 0) = num 0 ∧
    (validateLocation (num 200) (num 0) (num 200) (num 0) 100).isValid := by
  have h := calcDist_self 200 0
  refine ⟨h, ?_⟩
  rw [validateLocation_isValid, h, jle_num]
  norm_num

/-- C6 (amended): a NaN coordinate propagates to a NaN distance, which
compares as not within any radius, so `isValid` is false (fail-closed);
out-of-range finite degrees are not covered — they produce an ordinary
number that can still validate. -/
theorem c6_nan_fail_closed (lat lng clat clng : JSVal) (r : ℝ)
    (h : lat = nan ∨ lng = nan ∨ clat = nan ∨ clng = nan) :
    calculateDistance lat lng clat clng = nan ∧
    ¬ (validateLocation lat lng clat clng r).isValid := by
  have hd := calcDist_nan lat lng clat clng h
  refine ⟨hd, ?_⟩
  rw [validateLocation_isValid, hd]
  simp

/-- Witness for the amended C6 at a concrete input with a NaN latitude. -/
theorem c6_witness :
    ((nan : JSVal) = nan ∨ (num 0 : JSVal) = nan ∨ (num 0 : JSVal) = nan ∨
      (num 0 : JSVal) = nan) ∧
    calculateDistance nan (num 0) (num 0) (num 0) = nan ∧
    ¬ (validateLocation nan (num 0) (num 0) (num 0) 100).isValid :=
  ⟨Or.inl rfl,
    (c6_nan_fail_closed nan (num 0) (num 0) (num 0) 100 (Or.inl rfl)).1,
    (c6_nan_fail_closed nan (num 0) (num 0) (num 0) 100 (Or.inl rfl)).2⟩

/-- C7: the haversine distance is symmetric in its two coordinate points and
zero on identical points. -/
theorem c7_distance_symm_and_self :
    (∀ la1 lo1 la2 lo2 : ℝ,
      calculateDistance (num la1) (num lo1) (num la2) (num lo2) =
        calculateDistance (num la2) (num lo2) (num la1) (num lo1)) ∧
    (∀ la lo : ℝ, calculateDistance (num la) (num lo) (num la) (num lo) = num 0) := by
  constructor
  · intro la1 lo1 la2 lo2
    rw [calcDist_num, calcDist_num, havA_symm]
  · intro la lo
    exact calcDist_self la lo

/-- C4: for a token currently bound to a lecture, verification succeeds iff
`now < expiry`, the remaining time is `max 0 (expiry − now)` in whole
seconds, a token issued at `t` expires at `t + 5` minutes, and verifying at
the issue instant itself reports 300 remaining seconds. -/
theorem c4_verify_token_postcondition (db : DB) (tok : String) (now : Int) (lec : Lecture)
    (hl : getLectureByToken db tok = some lec) :
    ((∃ r, verifyToken db tok now = .valid r) ↔ now < lec.qr_expires_at) ∧
    (now < lec.qr_expires_at →
      verifyToken db tok now = .valid ((max 0 (lec.qr_expires_at - now)).fdiv 1000)) ∧
    (∀ uuid t, (generateQRData uuid t).2 = t + 5 * 60 * 1000) ∧
    (lec.qr_expires_at = now + 5 * 60 * 1000 → verifyToken db tok now = .valid 300) := by
  refine ⟨?_, ?_, ?_, ?_⟩
  · constructor
    · rintro ⟨r, hr⟩
      by_contra hlt
      have hle : lec.qr_expires_at ≤ now := by omega
      simp [verifyToken, hl, hle] at hr
    · intro hlt
      have hle : ¬ lec.qr_expires_at ≤ now := by omega
      refine ⟨(lec.qr_expires_at - now).fdiv 1000, ?_⟩
      simp [verifyToken, hl, hle]
  · intro hlt
    have hle : ¬ lec.qr_expires_at ≤ now := by omega
    have hmax : max 0 (lec.qr_expires_at - now) = lec.qr_expires_at - now :=
      max_eq_right (by omega)
    simp [verifyToken, hl, hle, hmax]
  · intro uuid t
    rfl
  · intro he
    have hle : ¬ lec.qr_expires_at ≤ now := by omega
    have h3 : lec.qr_expires_at - now = 300000 := by omega
    simp [verifyToken, hl, hle, h3]

/-- Witness for C4: the sample token expires at 300000 ms; verifying at
instant 0 (its issue time) reports valid with exactly 300 seconds left. -/
theorem c4_witness :
    getLectureByToken wDB "tok" = some wLecture ∧
    wLecture.qr_expires_at = 0 + 5 * 60 * 1000 ∧
    verifyToken wDB "tok" 0 = .valid 300 :=
  ⟨rfl, by decide,
    (c4_verify_token_postcondition wDB "tok" 0 wLecture rfl).2.2.2 (by decide)⟩

/-- After rebinding the lecture with the claimed id to a fresh token, no
surviving lecture still carries the old token value (ids are unique and the
old token belonged only to that lecture). -/
theorem updateFirst_token_gone (lid : Nat) (newTok : String) (exp : Int) (oldTok : String) :
    ∀ ls : List Lecture, ls.Pairwise (fun a b => a.id ≠ b.id) →
      (∀ x ∈ ls, x.qr_token = oldTok → x.id = lid) → newTok ≠ oldTok →
      ∀ x ∈ updateFirst (fun l => l.id == lid)
          (fun l => { l with qr_token := newTok, qr_expires_at := exp }) ls,
        x.qr_token ≠ oldTok := by
  intro ls
  induction ls with
  | nil => intro _ _ _ x hx; simp [updateFirst] at hx
  | cons h t ih =>
    intro hpw hold hne x hx
    rw [List.pairwise_cons] at hpw
    by_cases hp : (h.id == lid) = true
    · rw [updateFirst, if_pos hp] at hx
      rcases List.mem_cons.mp hx with hxh | hxt
      · subst hxh; exact hne
      · intro hcontra
        have hxid : x.id = lid := hold x (List.mem_cons_of_mem h hxt) hcontra
        have hhid : h.id = lid := by simpa using hp
        exact hpw.1 x hxt (by rw [hxid, hhid])
    · rw [updateFirst, if_neg hp] at hx
      rcases List.mem_cons.mp hx with hxh | hxt
      · subst hxh
        intro hcontra
        have := hold x (List.mem_cons_self x t) hcontra
        exact hp (by simpa using this)
      · exact ih hpw.2 (fun y hy => hold y (List.mem_cons_of_mem h hy)) hne x hxt

/-- C3: token reissue supersedes the prior token.  If every lecture that
carries the old token is the one being rebound (ids unique), then after
`updateLectureQR` the old token resolves to no lecture, and the verify
route reports not-found at every instant — even before the old expiry. -/
theorem c3_reissue_supersedes (db : DB) (lid : Nat) (newTok : String) (exp : Int)
    (oldTok : String)
    (hids : db.lectures.Pairwise (fun a b => a.id ≠ b.id))
    (hold : ∀ l ∈ db.lectures, l.qr_token = oldTok → l.id = lid)
    (hne : newTok ≠ oldTok) :
    getLectureByToken (updateLectureQR db lid newTok exp).1 oldTok = none ∧
    ∀ now, verifyToken (updateLectureQR db lid newTok exp).1 oldTok now = .notFound := by
  have hnone : getLectureByToken (updateLectureQR db lid newTok exp).1 oldTok = none := by
    by_cases hs : (db.lectures.find? (fun l => l.id == lid)).isSome
    · rw [updateLectureQR, if_pos hs]
      rw [getLectureByToken, List.find?_eq_none]
      intro x hx
      simp only [beq_iff_eq]
      exact updateFirst_token_gone lid newTok exp oldTok db.lectures hids hold hne x hx
    · rw [updateLectureQR, if_neg hs]
      rw [getLectureByToken, List.find?_eq_none]
      intro x hx
      simp only [beq_iff_eq]
      intro hcontra
      exact hs (List.find?_isSome.mpr ⟨x, hx, by simp [hold x hx hcontra]⟩)
  exact ⟨hnone, fun now => by simp [verifyToken, hnone]⟩

/-- Witness for C3: reissuing the sample lecture's token from `"old"` to
`"new"` makes the old value unresolvable. -/
theorem c3_witness :
    getLectureByToken (updateLectureQR w3DB 1 "new" 600000).1 "old" = none ∧
    verifyToken (updateLectureQR w3DB 1 "new" 600000).1 "old" 0 = .notFound := by
  have h := c3_reissue_supersedes w3DB 1 "new" 600000 "old"
    (by simp [w3DB])
    (by intro l hl hc; simp [w3DB] at hl; subst hl; rfl)
    (by decide)
  exact ⟨h.1, h.2 0⟩

/-- Elements surviving `removeFirst` were present before. -/
theorem removeFirst_subset (p : Lecture → Bool) :
    ∀ ls : List Lecture, ∀ x ∈ removeFirst p ls, x ∈ ls := by
  intro ls
  induction ls with
  | nil => intro x hx; simp [removeFirst] at hx
  | cons h t ih =>
    intro x hx
    rw [removeFirst] at hx
    by_cases hp : p h
    · rw [if_pos hp] at hx
      exact List.mem_cons_of_mem h hx
    · rw [if_neg hp] at hx
      rcases List.mem_cons.mp hx with hxh | hxt
      · exact hxh ▸ List.mem_cons_self h t
      · exact List.mem_cons_of_mem h (ih x hxt)

/-- An element that never satisfies the predicate survives `removeFirst`. -/
theorem mem_removeFirst (p : Lecture → Bool) :
    ∀ ls : List Lecture, ∀ x ∈ ls, p x = false → x ∈ removeFirst p ls := by
  intro ls
  induction ls with
  | nil => intro x hx; simp at hx
  | cons h t ih =>
    intro x hx hpx
    rw [removeFirst]
    by_cases hp : p h
    · rw [if_pos hp]
      rcases List.mem_cons.mp hx with hxh | hxt
      · subst hxh; rw [hp] at hpx; cases hpx
      · exact hxt
    · rw [if_neg hp]
      rcases List.mem_cons.mp hx with hxh | hxt
      · exact hxh ▸ List.mem_cons_self h _
      · exact List.mem_cons_of_mem h (ih x hxt hpx)

/-- Removing the owned lecture leaves no lecture with its id, when ids are
unique and a matching lecture was present. -/
theorem removeFirst_id_gone (lid tid : Nat) :
    ∀ ls : List Lecture, ls.Pairwise (fun a b => a.id ≠ b.id) →
      (∃ l ∈ ls, l.id = lid ∧ l.teacher_id = tid) →
      ∀ x ∈ removeFirst (fun l => l.id == lid && l.teacher_id == tid) ls, x.id ≠ lid := by
  intro ls
  induction ls with
  | nil => rintro _ ⟨l0, hl0, _⟩; simp at hl0
  | cons h t ih =>
    rintro hpw ⟨l0, hl0, hid0, htid0⟩ x hx
    rw [List.pairwise_cons] at hpw
    rw [removeFirst] at hx
    by_cases hp : (h.id == lid && h.teacher_id == tid) = true
    · rw [if_pos hp] at hx
      have hhid : h.id = lid := by
        rcases Bool.and_eq_true_iff.mp hp with ⟨h1, _⟩
        exact beq_iff_eq.mp h1
      intro hxid
      exact hpw.1 x hx (by rw [hhid, hxid])
    · rw [if_neg hp] at hx
      have hl0t : l0 ∈ t := by
        rcases List.mem_cons.mp hl0 with hl0h | hl0t
        · subst hl0h
          exact absurd (by simp [hid0, htid0]) hp
        · exact hl0t
      rcases List.mem_cons.mp hx with hxh | hxt
      · subst hxh
        intro hxid
        exact hpw.1 l0 hl0t (by rw [hxid, hid0])
      · exact ih hpw.2 ⟨l0, hl0t, hid0, htid0⟩ x hxt

/-- C8: deleting a lecture owned by the caller succeeds, removes the
lecture itself (no surviving lecture carries its id, given unique ids),
empties that lecture's attendance listing, leaves every other lecture's
attendance listing unchanged, removes no unrelated lecture (every survivor
was present before, and every lecture with another id survives, with its
token); deleting a lecture that does not exist or is not owned changes
nothing and reports failure. -/
theorem c8_delete_cascade (db : DB) (lid tid : Nat) :
    ((∃ l ∈ db.lectures, l.id = lid ∧ l.teacher_id = tid) →
      (deleteLecture db lid tid).2 = true ∧
      (db.lectures.Pairwise (fun a b => a.id ≠ b.id) →
        ∀ l ∈ (deleteLecture db lid tid).1.lectures, l.id ≠ lid) ∧
      getAttendanceByLecture (deleteLecture db lid tid).1 lid = [] ∧
      (∀ j, j ≠ lid →
        getAttendanceByLecture (deleteLecture db lid tid).1 j =
          getAttendanceByLecture db j) ∧
      (∀ l ∈ (deleteLecture db lid tid).1.lectures, l ∈ db.lectures) ∧
      (∀ l ∈ db.lectures, l.id ≠ lid → l ∈ (deleteLecture db lid tid).1.lectures)) ∧
    ((∀ l ∈ db.lectures, ¬(l.id = lid ∧ l.teacher_id = tid)) →
      deleteLecture db lid tid = (db, false)) := by
  constructor
  · rintro ⟨l0, hl0, hid0, htid0⟩
    have hs : (db.lectures.find? (fun l => l.id == lid && l.teacher_id == tid)).isSome := by
      rw [List.find?_isSome]
      exact ⟨l0, hl0, by simp [hid0, htid0]⟩
    rw [deleteLecture, if_pos hs]
    refine ⟨rfl, ?_, ?_, ?_, ?_, ?_⟩
    · intro hids l hl
      exact removeFirst_id_gone lid tid db.lectures hids ⟨l0, hl0, hid0, htid0⟩ l hl
    · rw [getAttendanceByLecture]
      have hfil : (db.attendance.filter (fun a => a.lecture_id != lid)).filter
          (fun a => a.lecture_id == lid) = [] := by
        rw [List.filter_filter, List.filter_eq_nil_iff]
        intro a _
        by_cases h : a.lecture_id = lid <;> simp [h]
      rw [hfil]
      rfl
    · intro j hj
      rw [getAttendanceByLecture, getAttendanceByLecture]
      have hfil : (db.attendance.filter (fun a => a.lecture_id != lid)).filter
          (fun a => a.lecture_id == j) = db.attendance.filter (fun a => a.lecture_id == j) := by
        rw [List.filter_filter]
        apply List.filter_congr
        intro a _
        by_cases h : a.lecture_id = j
        · have : a.lecture_id ≠ lid := by rw [h]; exact hj
          simp [h, this, hj]
        · simp [h]
      rw [hfil]
    · intro l hl
      exact removeFirst_subset _ db.lectures l hl
    · intro l hl hne
      apply mem_removeFirst _ db.lectures l hl
      simp [hne]
  · intro hnone
    have hs : (db.lectures.find? (fun l => l.id == lid && l.teacher_id == tid)).isSome = false := by
      rw [Bool.eq_false_iff]
      intro hsome
      rcases List.find?_isSome.mp hsome with ⟨l, hl, hp⟩
      have : l.id = lid ∧ l.teacher_id = tid := by
        simpa using hp
      exact hnone l hl this
    rw [deleteLecture, if_neg (by simp [hs])]

/-- Witness for C8: deleting the sample lecture (id 1, teacher 1) succeeds,
no surviving lecture carries id 1, and its attendance listing becomes empty
while the listing of lecture 2 is unchanged. -/
theorem c8_witness :
    (deleteLecture w8DB 1 1).2 = true ∧
    (∀ l ∈ (deleteLecture w8DB 1 1).1.lectures, l.id ≠ 1) ∧
    getAttendanceByLecture (deleteLecture w8DB 1 1).1 1 = [] ∧
    getAttendanceByLecture (deleteLecture w8DB 1 1).1 2 = getAttendanceByLecture w8DB 2 := by
  have h := (c8_delete_cascade w8DB 1 1).1 ⟨wLecture, by simp [w8DB], rfl, rfl⟩
  exact ⟨h.1, h.2.1 (by simp [w8DB]), h.2.2.1, h.2.2.2.1 2 (by decide)⟩

/-- Missing required field short-circuits before any database access. -/
theorem mark_eval_missing (db : DB) (req : MarkRequest) (now : Int)
    (h : req.token = "" ∨ req.studentName = "" ∨ req.rollNumber = "") :
    markAttendance db req now = (.missingFields, db) := by
  simp [markAttendance, h]

/-- Unknown token terminates the pipeline with the not-found outcome. -/
theorem mark_eval_notFound (db : DB) (req : MarkRequest) (now : Int)
    (hcond : ¬(req.token = "" ∨ req.studentName = "" ∨ req.rollNumber = ""))
    (hlook : getLectureByToken db req.token = none) :
    markAttendance db req now = (.tokenNotFound, db) := by
  simp [markAttendance, hcond, hlook]

/-- An expired token terminates the pipeline regardless of every later
check. -/
theorem mark_eval_expired (db : DB) (req : MarkRequest) (now : Int) (lec : Lecture)
    (hcond : ¬(req.token = "" ∨ req.studentName = "" ∨ req.rollNumber = ""))
    (hlook : getLectureByToken db req.token = some lec)
    (hexp : lec.qr_expires_at ≤ now) :
    markAttendance db req now = (.tokenExpired, db) := by
  simp [markAttendance, hcond, hlook, hexp]

/-- An existing record for the normalized roll terminates with duplicate. -/
theorem mark_eval_duplicate (db : DB) (req : MarkRequest) (now : Int) (lec : Lecture)
    (a : Attendance)
    (hcond : ¬(req.token = "" ∨ req.studentName = "" ∨ req.rollNumber = ""))
    (hlook : getLectureByToken db req.token = some lec)
    (hexp : ¬ lec.qr_expires_at ≤ now)
    (hdup : getAttendanceByLectureAndRoll db lec.id (normalizeRoll req.rollNumber) = some a) :
    markAttendance db req now = (.duplicate, db) := by
  simp [markAttendance, hcond, hlook, hexp, hdup]

/-- Undefined coordinates terminate with the location-required outcome. -/
theorem mark_eval_locRequired (db : DB) (req : MarkRequest) (now : Int) (lec : Lecture)
    (hcond : ¬(req.token = "" ∨ req.studentName = "" ∨ req.rollNumber = ""))
    (hlook : getLectureByToken db req.token = some lec)
    (hexp : ¬ lec.qr_expires_at ≤ now)
    (hdup : getAttendanceByLectureAndRoll db lec.id (normalizeRoll req.rollNumber) = none)
    (hor : req.latitude = none ∨ req.longitude = none) :
    markAttendance db req now = (.locationRequired, db) := by
  rcases hor with h | h
  · cases hlng : req.longitude <;> simp [markAttendance, hcond, hlook, hexp, hdup, h, hlng]
  · cases hlat : req.latitude <;> simp [markAttendance, hcond, hlook, hexp, hdup, h, hlat]

/-- A failed geofence check terminates with the rejection outcome, carrying
the rounded distance and the allowed radius. -/
theorem mark_eval_reject (db : DB) (req : MarkRequest) (now : Int) (lec : Lecture)
    (lat lng : JSVal)
    (hcond : ¬(req.token = "" ∨ req.studentName = "" ∨ req.rollNumber = ""))
    (hlook : getLectureByToken db req.token = some lec)
    (hexp : ¬ lec.qr_expires_at ≤ now)
    (hdup : getAttendanceByLectureAndRoll db lec.id (normalizeRoll req.rollNumber) = none)
    (hlat : req.latitude = some lat) (hlng : req.longitude = some lng)
    (hnv : ¬ (validateLocation lat lng (num lec.classroom_lat) (num lec.classroom_lng)
        lec.allowed_radius).isValid) :
    markAttendance db req now =
      (.locationRejected (validateLocation lat lng (num lec.classroom_lat)
          (num lec.classroom_lng) lec.allowed_radius).distance lec.allowed_radius, db) := by
  simp [markAttendance, hcond, hlook, hexp, hdup, hlat, hlng, hnv]

/-- When every check passes, the pipeline appends the freshly created record
and reports it as accepted. -/
theorem mark_eval_accept (db : DB) (req : MarkRequest) (now : Int) (lec : Lecture)
    (lat lng : JSVal)
    (hcond : ¬(req.token = "" ∨ req.studentName = "" ∨ req.rollNumber = ""))
    (hlook : getLectureByToken db req.token = some lec)
    (hexp : ¬ lec.qr_expires_at ≤ now)
    (hdup : getAttendanceByLectureAndRoll db lec.id (normalizeRoll req.rollNumber) = none)
    (hlat : req.latitude = some lat) (hlng : req.longitude = some lng)
    (hv : (validateLocation lat lng (num lec.classroom_lat) (num lec.classroom_lng)
        lec.allowed_radius).isValid) :
    markAttendance db req now =
      (.accepted (createAttendance db lec.id (jsTrim req.studentName)
          (normalizeRoll req.rollNumber) lat lng "verified" now).1,
        (createAttendance db lec.id (jsTrim req.studentName)
          (normalizeRoll req.rollNumber) lat lng "verified" now).2) := by
  simp [markAttendance, hcond, hlook, hexp, hdup, hlat, hlng, hv]

/-- C1: for a submission carrying the three required fields, the checks run
in the fixed order token lookup, expiry, duplicate, location presence,
geofence, commit, and the first failing check terminates the pipeline with
its specific outcome.  In particular the expiry conclusion holds with no
assumption on the duplicate, presence, or geofence state, so an expired
token yields `tokenExpired` even for a submission that is also a duplicate
or outside the geofence. -/
theorem c1_pipeline_order (db : DB) (req : MarkRequest) (now : Int) (hf : fieldsOk req) :
    (getLectureByToken db req.token = none →
      markAttendance db req now = (.tokenNotFound, db)) ∧
    (∀ lec, getLectureByToken db req.token = some lec →
      (lec.qr_expires_at ≤ now → markAttendance db req now = (.tokenExpired, db)) ∧
      (¬ lec.qr_expires_at ≤ now →
        (∀ a, getAttendanceByLectureAndRoll db lec.id (normalizeRoll req.rollNumber) = some a →
          markAttendance db req now = (.duplicate, db)) ∧
        (getAttendanceByLectureAndRoll db lec.id (normalizeRoll req.rollNumber) = none →
          ((req.latitude = none ∨ req.longitude = none) →
            markAttendance db req now = (.locationRequired, db)) ∧
          (∀ lat lng, req.latitude = some lat → req.longitude = some lng →
            (¬ (validateLocation lat lng (num lec.classroom_lat) (num lec.classroom_lng)
                lec.allowed_radius).isValid →
              markAttendance db req now =
                (.locationRejected (validateLocation lat lng (num lec.classroom_lat)
                    (num lec.classroom_lng) lec.allowed_radius).distance
                  lec.allowed_radius, db)) ∧
            ((validateLocation lat lng (num lec.classroom_lat) (num lec.classroom_lng)
                lec.allowed_radius).isValid →
              markAttendance db req now =
                (.accepted (createAttendance db lec.id (jsTrim req.studentName)
                    (normalizeRoll req.rollNumber) lat lng "verified" now).1,
                  (createAttendance db lec.id (jsTrim req.studentName)
                    (normalizeRoll req.rollNumber) lat lng "verified" now).2)))))) := by
  have hcond : ¬(req.token = "" ∨ req.studentName = "" ∨ req.rollNumber = "") := by
    rcases hf with ⟨h1, h2, h3⟩
    push_neg
    exact ⟨h1, h2, h3⟩
  refine ⟨fun hn => mark_eval_notFound db req now hcond hn, fun lec hlook => ?_⟩
  refine ⟨fun hexp => mark_eval_expired db req now lec hcond hlook hexp, fun hexp => ?_⟩
  refine ⟨fun a ha => mark_eval_duplicate db req now lec a hcond hlook hexp ha,
    fun hdup => ?_⟩
  refine ⟨fun hor => mark_eval_locRequired db req now lec hcond hlook hexp hdup hor,
    fun lat lng hlat hlng => ?_⟩
  exact ⟨fun hnv => mark_eval_reject db req now lec lat lng hcond hlook hexp hdup hlat hlng hnv,
    fun hv => mark_eval_accept db req now lec lat lng hcond hlook hexp hdup hlat hlng hv⟩

/-- Witness for C1: a concrete submission whose token is expired and which
is simultaneously a duplicate yields `tokenExpired`; the expiry check fires
first. -/
theorem c1_witness :
    fieldsOk w2Req ∧
    getLectureByToken w2DB "tok" = some wLecture ∧
    markAttendance w2DB w2Req 400000 = (.tokenExpired, w2DB) := by
  have hf : fieldsOk w2Req := by
    refine ⟨?_, ?_, ?_⟩ <;> decide
  have h := (c1_pipeline_order w2DB w2Req 400000 hf).2 wLecture rfl
  exact ⟨hf, rfl, h.1 (by decide)⟩

/-- C2: the ledger keeps at most one record per normalized identity per
lecture.  The invariant is preserved by every sequential submission; a
successful submission appends exactly one record carrying the normalized
roll of the request and the id of the lecture the token resolved to; and
whenever a record with the normalized roll already exists for the resolved
lecture, the submission terminates with `duplicate` and appends nothing. -/
theorem c2_duplicate_suppression (db : DB) (req : MarkRequest) (now : Int) :
    (ledgerInv db → ledgerInv (markAttendance db req now).2) ∧
    (∀ a db', markAttendance db req now = (.accepted a, db') →
      db'.attendance = db.attendance ++ [a] ∧
      a.roll_number = normalizeRoll req.rollNumber ∧
      ∃ lec, getLectureByToken db req.token = some lec ∧ a.lecture_id = lec.id) ∧
    (∀ lec, fieldsOk req → getLectureByToken db req.token = some lec →
      ¬ lec.qr_expires_at ≤ now →
      (∃ a ∈ db.attendance, a.lecture_id = lec.id ∧
        a.roll_number = normalizeRoll req.rollNumber) →
      markAttendance db req now = (.duplicate, db)) := by
  refine ⟨?_, ?_, ?_⟩
  · intro hInv
    by_cases hcond : req.token = "" ∨ req.studentName = "" ∨ req.rollNumber = ""
    · rw [mark_eval_missing db req now hcond]; exact hInv
    · cases hlook : getLectureByToken db req.token with
      | none => rw [mark_eval_notFound db req now hcond hlook]; exact hInv
      | some lec =>
        by_cases hexp : lec.qr_expires_at ≤ now
        · rw [mark_eval_expired db req now lec hcond hlook hexp]; exact hInv
        · cases hdup : getAttendanceByLectureAndRoll db lec.id (normalizeRoll req.rollNumber) with
          | some a => rw [mark_eval_duplicate db req now lec a hcond hlook hexp hdup]; exact hInv
          | none =>
            cases hlat : req.latitude with
            | none =>
              rw [mark_eval_locRequired db req now lec hcond hlook hexp hdup (Or.inl hlat)]
              exact hInv
            | some lat =>
              cases hlng : req.longitude with
              | none =>
                rw [mark_eval_locRequired db req now lec hcond hlook hexp hdup (Or.inr hlng)]
                exact hInv
              | some lng =>
                by_cases hv : (validateLocation lat lng (num lec.classroom_lat)
                    (num lec.classroom_lng) lec.allowed_radius).isValid
                · rw [mark_eval_accept db req now lec lat lng hcond hlook hexp hdup hlat hlng hv]
                  show ledgerInv (createAttendance db lec.id (jsTrim req.studentName)
                    (normalizeRoll req.rollNumber) lat lng "verified" now).2
                  simp only [createAttendance, ledgerInv]
                  have hnot : ∀ x ∈ db.attendance,
                      ¬(x.lecture_id = lec.id ∧
                        x.roll_number = normalizeRoll req.rollNumber) := by
                    intro x hx
                    have := List.find?_eq_none.mp hdup x hx
                    intro ⟨h1, h2⟩
                    exact this (by simp [h1, h2])
                  constructor
                  · intro a ha
                    rcases List.mem_append.mp ha with hold | hnew
                    · exact hInv.1 a hold
                    · rcases List.mem_singleton.mp hnew with rfl
                      exact ⟨req.rollNumber, rfl⟩
                  · rw [List.pairwise_append]
                    refine ⟨hInv.2, List.pairwise_singleton _ _, ?_⟩
                    intro x hx b hb
                    rcases List.mem_singleton.mp hb with rfl
                    intro hlid
                    intro hroll
                    exact hnot x hx ⟨hlid, hroll⟩
                · rw [mark_eval_reject db req now lec lat lng hcond hlook hexp hdup hlat hlng hv]
                  exact hInv
  · intro a db' heq
    by_cases hcond : req.token = "" ∨ req.studentName = "" ∨ req.rollNumber = ""
    · rw [mark_eval_missing db req now hcond] at heq; simp at heq
    · cases hlook : getLectureByToken db req.token with
      | none => rw [mark_eval_notFound db req now hcond hlook] at heq; simp at heq
      | some lec =>
        by_cases hexp : lec.qr_expires_at ≤ now
        · rw [mark_eval_expired db req now lec hcond hlook hexp] at heq; simp at heq
        · cases hdup : getAttendanceByLectureAndRoll db lec.id (normalizeRoll req.rollNumber) with
          | some b =>
            rw [mark_eval_duplicate db req now lec b hcond hlook hexp hdup] at heq
            simp at heq
          | none =>
            cases hlat : req.latitude with
            | none =>
              rw [mark_eval_locRequired db req now lec hcond hlook hexp hdup (Or.inl hlat)] at heq
              simp at heq
            | some lat =>
              cases hlng : req.longitude with
              | none =>
                rw [mark_eval_locRequired db req now lec hcond hlook hexp hdup
                  (Or.inr hlng)] at heq
                simp at heq
              | some lng =>
                by_cases hv : (validateLocation lat lng (num lec.classroom_lat)
                    (num lec.classroom_lng) lec.allowed_radius).isValid
                · rw [mark_eval_accept db req now lec lat lng hcond hlook hexp hdup
                    hlat hlng hv] at heq
                  rw [Prod.mk.injEq] at heq
                  have ha : (createAttendance db lec.id (jsTrim req.studentName)
                      (normalizeRoll req.rollNumber) lat lng "verified" now).1 = a := by
                    have := heq.1
                    cases this
                    rfl
                  refine ⟨?_, ?_, lec, rfl, ?_⟩
                  · rw [← heq.2, ← ha]; rfl
                  · rw [← ha]; rfl
                  · rw [← ha]; rfl
                · rw [mark_eval_reject db req now lec lat lng hcond hlook hexp hdup
                    hlat hlng hv] at heq
                  simp at heq
  · intro lec hf hlook hexp ⟨a, ha, hid, hroll⟩
    have hcond : ¬(req.token = "" ∨ req.studentName = "" ∨ req.rollNumber = "") := by
      rcases hf with ⟨h1, h2, h3⟩
      push_neg
      exact ⟨h1, h2, h3⟩
    have hsome : (db.attendance.find? (fun x =>
        x.lecture_id == lec.id && x.roll_number == normalizeRoll req.rollNumber)).isSome := by
      rw [List.find?_isSome]
      exact ⟨a, ha, by simp [hid, hroll]⟩
    rcases Option.isSome_iff_exists.mp hsome with ⟨b, hb⟩
    exact mark_eval_duplicate db req now lec b hcond hlook hexp hb

/-- Witness for C2: with a record for `"A1"` already stored for the sample
lecture, the case/whitespace variant `"a1 "` submitted against the same
lecture is reported as a duplicate and the database is unchanged. -/
theorem c2_witness :
    ledgerInv w2DB ∧
    markAttendance w2DB w2Req 5 = (.duplicate, w2DB) := by
  have hInv : ledgerInv w2DB := by
    constructor
    · intro a ha
      rcases List.mem_singleton.mp ha with rfl
      exact ⟨"A1", by decide⟩
    · exact List.pairwise_singleton _ _
  have h := (c2_duplicate_suppression w2DB w2Req 5).2.2 wLecture
    ⟨by decide, by decide, by decide⟩ rfl (by decide)
    ⟨w2A, by simp [w2DB], rfl, by decide⟩
  exact ⟨hInv, h⟩

/-- C9 (code behavior at the failing input): when the persistence write
fails, `Database.save` catches and only logs, so the submission's outcome
and the in-memory state are exactly those of a run with a successful write
— in particular a fully valid submission is still reported as accepted to
the caller — and the on-disk ledger is left untouched, now out of sync with
memory. -/
theorem c9_save_error_swallowed (db disk : DB) (req : MarkRequest) (now : Int) :
    (∀ ok, (markAttendanceFS db disk req now ok).1 = (markAttendance db req now).1 ∧
      (markAttendanceFS db disk req now ok).2.1 = (markAttendance db req now).2) ∧
    markAttendanceFS db disk req now false =
      ((markAttendance db req now).1, (markAttendance db req now).2, disk) := by
  constructor
  · intro ok
    rcases hm : markAttendance db req now with ⟨o, db'⟩
    cases o <;> simp [markAttendanceFS, hm]
  · rcases hm : markAttendance db req now with ⟨o, db'⟩
    cases o <;> simp [markAttendanceFS, hm, save]

/-- C10 counterexample: present but null coordinates do not produce a NaN
distance and are not necessarily rejected.  JS `null` coerces to `0`, so
against the sample lecture whose classroom is the origin the distance is
the number 0 and the submission is accepted, appending a record with null
stored coordinates. -/
theorem c10_counterexample :
    calculateDistance JSVal.null JSVal.null (num 0) (num 0) = num 0 ∧
    markAttendance wDB c10Req 5 = (.accepted c10Rec, { wDB with attendance := [c10Rec] }) := by
  have hnull : calculateDistance JSVal.null JSVal.null (num 0) (num 0) =
      calculateDistance (num 0) (num 0) (num 0) (num 0) := rfl
  have hd : calculateDistance JSVal.null JSVal.null (num 0) (num 0) = num 0 := by
    rw [hnull]; exact calcDist_self 0 0
  refine ⟨hd, ?_⟩
  have hv : (validateLocation JSVal.null JSVal.null (num wLecture.classroom_lat)
      (num wLecture.classroom_lng) wLecture.allowed_radius).isValid := by
    rw [validateLocation_isValid]
    show jle (calculateDistance JSVal.null JSVal.null (num 0) (num 0)) 100
    rw [hd, jle_num]
    norm_num
  have h := mark_eval_accept wDB c10Req 5 wLecture JSVal.null JSVal.null
    (by push_neg; refine ⟨?_, ?_, ?_⟩ <;> decide) rfl (by decide) rfl rfl rfl hv
  rw [h]
  rfl

/-- C10 (amended): the presence check only tests for `undefined`, so
present-but-null coordinates reach the geofence check, where `null` coerces
to `0` — the distance is measured from the point (0,0), and the outcome is
whatever the geofence decides there (not necessarily a rejection, and never
NaN).  Coordinates that are NaN do yield a NaN distance, which fails the
geofence, terminating with `locationRejected` carrying a NaN distance and
appending nothing. -/
theorem c10_null_and_nan_coordinates (clat clng r : ℝ) (db : DB) (req : MarkRequest)
    (now : Int) (lec : Lecture) (lng : JSVal)
    (hf : fieldsOk req)
    (hlook : getLectureByToken db req.token = some lec)
    (hexp : ¬ lec.qr_expires_at ≤ now)
    (hdup : getAttendanceByLectureAndRoll db lec.id (normalizeRoll req.rollNumber) = none)
    (hlat : req.latitude = some JSVal.nan)
    (hlng : req.longitude = some lng) :
    validateLocation JSVal.null JSVal.null (num clat) (num clng) r =
      validateLocation (num 0) (num 0) (num clat) (num clng) r ∧
    markAttendance db req now = (.locationRejected nan lec.allowed_radius, db) := by
  refine ⟨rfl, ?_⟩
  have hcond : ¬(req.token = "" ∨ req.studentName = "" ∨ req.rollNumber = "") := by
    rcases hf with ⟨h1, h2, h3⟩
    push_neg
    exact ⟨h1, h2, h3⟩
  have hd : calculateDistance JSVal.nan lng (num lec.classroom_lat)
      (num lec.classroom_lng) = nan :=
    calcDist_nan _ _ _ _ (Or.inl rfl)
  have hnv : ¬ (validateLocation JSVal.nan lng (num lec.classroom_lat)
      (num lec.classroom_lng) lec.allowed_radius).isValid := by
    rw [validateLocation_isValid, hd]
    simp
  have hdist : (validateLocation JSVal.nan lng (num lec.classroom_lat)
      (num lec.classroom_lng) lec.allowed_radius).distance = nan := by
    rw [validateLocation_distance, hd, jround_nan]
  rw [mark_eval_reject db req now lec JSVal.nan lng hcond hlook hexp hdup hlat hlng hnv, hdist]

/-- Witness for the amended C10: a NaN-latitude submission against the
sample lecture is rejected with a NaN display distance, with the database
unchanged. -/
theorem c10_witness :
    markAttendance wDB c10NanReq 5 = (.locationRejected nan 100, wDB) := by
  have h := (c10_null_and_nan_coordinates 0 0 100 wDB c10NanReq 5 wLecture (num 0)
    ⟨by decide, by decide, by decide⟩ rfl (by decide) rfl rfl rfl).2
  exact h
